import Mathlib

/-!
Shallow embedding of `nova/pci/request.py` (PCI alias parsing, validation,
request translation and VIF binding resolution).

Scope of the embedding:
* A raw alias entry is modelled after it has been JSON-decoded and checked
  against `_ALIAS_SCHEMA`: the schema admits exactly the fields of `RawAlias`
  (all optional except `name`).  JSON decoding and the jsonschema library are
  external collaborators and are not modelled; the claims under study are about
  the merging, validation, translation and binding logic that runs afterwards.
* Python dicts preserve insertion order, so the alias table (type `Alias` in
  the source) is modelled as an insertion-ordered association list.
* Configuration reads (`CONF.filter_scheduler.pci_in_placement`, the raw
  `CONF.pci.alias` list) become explicit parameters; `functools.cache` is not
  modelled (no claim is about memoization).
* `uuidutils.generate_uuid()` produces a fresh unique identifier per emitted
  request; it is modelled by a natural-number counter threaded through the
  translation loop, so distinct requests of one call receive distinct ids.
* Exceptions become `Except PciError`. PCI-specific exceptions keep their
  payload; an uncaught Python `ValueError` (e.g. `int()` on a bad literal, or
  tuple unpacking of a `split` result) is `PciError.valueError`.
-/

set_option maxRecDepth 100000

deriving instance DecidableEq for Except

/-- Errors raised by the embedded code.  `invalidAlias` models
`exception.PciInvalidAlias` and carries the reason / message string;
`aliasNotDefined` models `exception.PciRequestAliasNotDefined`;
`requestFromVIFNotFound` models `exception.PciRequestFromVIFNotFound` with its
`pci_slot` and `node_id` payload; `valueError` models an uncaught Python
`ValueError`. -/
inductive PciError where
  | invalidAlias (reason : String)
  | aliasNotDefined (alias_name : String)
  | requestFromVIFNotFound (pci_slot : String) (node_id : Nat)
  | valueError (msg : String)
deriving DecidableEq, Repr

/-- One raw alias config entry after JSON parsing and schema validation:
exactly the properties admitted by `_ALIAS_SCHEMA`, all optional but `name`. -/
structure RawAlias where
  name : String
  capability_type : Option String := none
  product_id : Option String := none
  vendor_id : Option String := none
  device_type : Option String := none
  numa_policy : Option String := none
  resource_class : Option String := none
  traits : Option String := none
  live_migratable : Option String := none
deriving DecidableEq, Repr

/-- A PCI device spec as stored in the alias table: the entry dict after
`name`, `numa_policy`, `device_type` and `live_migratable` have been popped,
with `dev_type` (renamed from `device_type`) and the normalized
`live_migratable` re-inserted when present. -/
structure PciSpec where
  capability_type : Option String := none
  product_id : Option String := none
  vendor_id : Option String := none
  resource_class : Option String := none
  traits : Option String := none
  dev_type : Option String := none
  live_migratable : Option String := none
deriving DecidableEq, Repr

/-- The alias table type (`Alias = ty.Dict[str, ty.Tuple[str, ty.List ...]]`
in the source): alias name to `(numa_policy, spec list)`, insertion ordered. -/
abbrev Alias := List (String × String × List PciSpec)

/-- Whitespace for Python `str.strip()` (the ASCII whitespace characters;
Python also strips other Unicode whitespace, which no claim exercises). -/
def pyIsSpace (c : Char) : Bool :=
  c = ' ' || c = '\t' || c = '\n' || c = '\r' || c.val = 11 || c.val = 12

/-- Model of Python `str.strip()` with no arguments. -/
def pyStrip (s : String) : String :=
  ⟨((s.data.dropWhile pyIsSpace).reverse.dropWhile pyIsSpace).reverse⟩

/-- Model of Python `str.lower()` (ASCII case folding suffices here). -/
def pyLower (s : String) : String :=
  ⟨s.data.map Char.toLower⟩

/-- Split a character list on a separator character; every maximal (possibly
empty) separator-free run becomes one chunk. -/
def splitCharList (sep : Char) : List Char → List (List Char)
  | [] => [[]]
  | c :: cs =>
    match splitCharList sep cs with
    | [] => [[c]]
    | h :: t => if c = sep then [] :: h :: t else (c :: h) :: t

/-- Model of Python `str.split(sep)` for a single-character separator (the
source only splits on "," and ":"). -/
def pySplit (s : String) (sep : Char) : List String :=
  (splitCharList sep s.data).map (fun l => String.mk l)

/-- Model of Python `sep.join(strings)`. -/
def pyJoin (sep : String) (l : List String) : String :=
  ⟨List.intercalate sep.data (l.map (fun s => s.data))⟩

/-- Code-point lexicographic order on character lists: the comparison used
by Python `sorted` on `str`. -/
def charListLe : List Char → List Char → Bool
  | [], _ => true
  | _ :: _, [] => false
  | a :: as, b :: bs => if a = b then charListLe as bs else decide (a.val < b.val)

/-- Truthy strings accepted as True by `oslo_utils.strutils.bool_from_string`. -/
def TRUE_STRINGS : List String := ["1", "t", "true", "on", "y", "yes"]

/-- Falsy strings accepted as False by `oslo_utils.strutils.bool_from_string`. -/
def FALSE_STRINGS : List String := ["0", "f", "false", "off", "n", "no"]

/-- Model of `strutils.bool_from_string(s, strict=True)`: lower-cases and
strips the subject, recognizes the fixed true/false string lists, and raises
`ValueError` otherwise (message abridged). -/
def bool_from_string (s : String) : Except String Bool :=
  let l := pyLower (pyStrip s)
  if l ∈ TRUE_STRINGS then .ok true
  else if l ∈ FALSE_STRINGS then .ok false
  else .error ("Unrecognized value " ++ s)

/-- The effective NUMA policy of an entry: `spec.pop('numa_policy', None)`
defaulted to `PCINUMAAffinityPolicy.LEGACY` (= "legacy") when falsy. -/
def effNumaPolicy (e : RawAlias) : String :=
  match e.numa_policy with
  | none => "legacy"
  | some p => if p = "" then "legacy" else p

/-- The pure part of building the stored spec dict from a raw entry:
`device_type` is renamed to `dev_type` when truthy; `lm` is the already
normalized `live_migratable` value. -/
def entrySpecFields (e : RawAlias) (lm : Option String) : PciSpec :=
  { capability_type := e.capability_type
    product_id := e.product_id
    vendor_id := e.vendor_id
    resource_class := e.resource_class
    traits := e.traits
    dev_type :=
      match e.device_type with
      | none => none
      | some d => if d = "" then none else some d
    live_migratable := lm }

/-- Normalization of `live_migratable` to the literal strings "true"/"false";
a `ValueError` from `bool_from_string` is caught by the generic handler in
`get_alias_from_config` and wrapped into `PciInvalidAlias(reason=str(exc))`. -/
def normLiveMigratable : Option String → Except PciError (Option String)
  | none => .ok none
  | some s =>
    match bool_from_string s with
    | .ok b => .ok (some (if b then "true" else "false"))
    | .error msg => .error (.invalidAlias msg)

/-- The stored spec dict built from a raw entry (may fail on a bad
`live_migratable` value). -/
def entrySpec (e : RawAlias) : Except PciError PciSpec := do
  let lm ← normLiveMigratable e.live_migratable
  pure (entrySpecFields e lm)

/-- Ordered-dict lookup: `aliases[name]` / `name in aliases`. -/
def lookupAlias : Alias → String → Option (String × List PciSpec)
  | [], _ => none
  | a :: rest, n => if a.1 = n then some a.2 else lookupAlias rest n

/-- Ordered-dict in-place update of an existing key (keeps its position). -/
def updateAlias : Alias → String → (String × List PciSpec) → Alias
  | [], _, _ => []
  | a :: rest, n, v => if a.1 = n then (n, v) :: rest else a :: updateAlias rest n v

/-- Body of the per-entry loop of `get_alias_from_config` (request.py lines
191-225): strip the name, default the NUMA policy, build the stored spec,
then either insert a fresh Alias or merge into the existing one.  A merge
requires the stored NUMA policy to match, and compares
`aliases[name][1][0]['dev_type']` with `spec['dev_type']`: a missing
`dev_type` key on either side raises `KeyError('dev_type')`, which the
generic `except Exception` handler turns into
`PciInvalidAlias(reason="'dev_type'")`. -/
def loadAliasEntry (aliases : Alias) (e : RawAlias) : Except PciError Alias := do
  let name := pyStrip e.name
  let numa_policy := effNumaPolicy e
  let spec ← entrySpec e
  match lookupAlias aliases name with
  | none => .ok (aliases ++ [(name, (numa_policy, [spec]))])
  | some (np0, specs0) =>
    if np0 ≠ numa_policy then
      .error (.invalidAlias ("NUMA policy mismatch for alias '" ++ name ++ "'"))
    else
      match specs0 with
      | [] => .error (.invalidAlias "list index out of range")
      | s0 :: _ =>
        match s0.dev_type, spec.dev_type with
        | none, _ => .error (.invalidAlias "'dev_type'")
        | some _, none => .error (.invalidAlias "'dev_type'")
        | some d0, some d1 =>
          if d0 ≠ d1 then
            .error (.invalidAlias ("Device type mismatch for alias '" ++ name ++ "'"))
          else
            .ok (updateAlias aliases name (np0, specs0 ++ [spec]))

/-- The merge loop of `get_alias_from_config`: fold `loadAliasEntry` over the
configured entries, starting from the empty table. -/
def buildAliases (entries : List RawAlias) : Except PciError Alias :=
  entries.foldlM loadAliasEntry []

/-- The list comprehension of `_validate_multispec`: names of aliases whose
spec list has more than one entry, in table iteration order. -/
def aliasWithMultipleSpecs (aliases : Alias) : List String :=
  (aliases.filter (fun a => 1 < a.2.2.length)).map (fun a => a.1)

/-- The `PciInvalidAlias` message of `_validate_multispec` for the
comma-joined offending names. -/
def multispecMsg (names : String) : String :=
  "The PCI alias(es) " ++ names ++ " have multiple specs but " ++
  "[filter_scheduler]pci_in_placement is True. The PCI in " ++
  "Placement feature only supports one spec per alias. You can " ++
  "assign the same resource_class to multiple [pci]device_spec " ++
  "matchers to allow using different devices for the same alias."

/-- `_validate_multispec`: under `pci_in_placement`, fail if any alias has
more than one spec, listing all such aliases. -/
def validate_multispec (pci_in_placement : Bool) (aliases : Alias) :
    Except PciError Unit :=
  if pci_in_placement then
    let names := aliasWithMultipleSpecs aliases
    if names.isEmpty then .ok ()
    else .error (.invalidAlias (multispecMsg (pyJoin "," names)))
  else .ok ()

/-- Python set-add on a list kept duplicate-free in insertion order. -/
def setAdd (l : List String) (x : String) : List String :=
  if x ∈ l then l else l ++ [x]

/-- Insert into a ≤-sorted list of strings (code-point lexicographic, as
Python `sorted` on `str`). -/
def insertSorted (x : String) : List String → List String
  | [] => [x]
  | y :: ys => if charListLe x.data y.data then x :: y :: ys else y :: insertSorted x ys

/-- Model of Python `sorted` on a list of strings. -/
def sortStrings (l : List String) : List String := l.foldr insertSorted []

/-- Whether a spec has both `vendor_id` and `product_id` keys
(the `ids` flag of `_validate_required_ids`). -/
def specHasIds (s : PciSpec) : Bool :=
  s.vendor_id.isSome && s.product_id.isSome

/-- Whether a spec has a `resource_class` key
(the `rc` flag of `_validate_required_ids`). -/
def specHasRc (s : PciSpec) : Bool :=
  s.resource_class.isSome

/-- The set built by the `pci_in_placement` branch of
`_validate_required_ids`: alias names with a spec lacking both ids and a
resource class. -/
def aliasWithoutIdsOrRc (aliases : Alias) : List String :=
  aliases.foldl
    (fun acc a =>
      a.2.2.foldl
        (fun acc2 s => if !specHasIds s && !specHasRc s then setAdd acc2 a.1 else acc2)
        acc)
    []

/-- The set built by the non-placement branch of `_validate_required_ids`:
alias names with a spec lacking ids. -/
def aliasWithoutIds (aliases : Alias) : List String :=
  aliases.foldl
    (fun acc a =>
      a.2.2.foldl
        (fun acc2 s => if !specHasIds s then setAdd acc2 a.1 else acc2)
        acc)
    []

/-- The `PciInvalidAlias` message of the `pci_in_placement` branch of
`_validate_required_ids`. -/
def requiredIdsPlacementMsg (names : String) : String :=
  "The PCI alias(es) " ++ names ++ " does not have vendor_id and product_id " ++
  "fields set or resource_class field set."

/-- The `PciInvalidAlias` message of the non-placement branch of
`_validate_required_ids`. -/
def requiredIdsMsg (names : String) : String :=
  "The PCI alias(es) " ++ names ++ " does not have vendor_id and product_id " ++
  "fields set."

/-- `_validate_required_ids`: every spec needs `vendor_id`+`product_id`, or,
under `pci_in_placement` only, alternatively a `resource_class`; offenders
are reported sorted and comma-joined. -/
def validate_required_ids (pci_in_placement : Bool) (aliases : Alias) :
    Except PciError Unit :=
  if pci_in_placement then
    let bad := aliasWithoutIdsOrRc aliases
    if bad.isEmpty then .ok ()
    else .error (.invalidAlias
      (requiredIdsPlacementMsg (pyJoin "," (sortStrings bad))))
  else
    let bad := aliasWithoutIds aliases
    if bad.isEmpty then .ok ()
    else .error (.invalidAlias
      (requiredIdsMsg (pyJoin "," (sortStrings bad))))

/-- `_validate_aliases`: multispec check first, then required-ids check. -/
def validate_aliases (pci_in_placement : Bool) (aliases : Alias) :
    Except PciError Unit := do
  validate_multispec pci_in_placement aliases
  validate_required_ids pci_in_placement aliases

/-- `get_alias_from_config`: merge all configured entries into a table, then
run the table-level validators; the raw entry list and the
`[filter_scheduler]pci_in_placement` flag are explicit parameters. -/
def get_alias_from_config (pci_in_placement : Bool)
    (entries : List RawAlias) : Except PciError Alias := do
  let aliases ← buildAliases entries
  validate_aliases pci_in_placement aliases
  pure aliases

/-- An `objects.InstancePCIRequest` as built by
`_translate_alias_to_requests`; `request_id` is the modelled uuid. -/
structure InstancePCIRequest where
  count : Int
  spec : List PciSpec
  alias_name : String
  numa_policy : String
  request_id : Nat
deriving DecidableEq, Repr

/-- An `objects.InstancePCIRequests` collection. -/
structure InstancePCIRequests where
  requests : List InstancePCIRequest
deriving DecidableEq, Repr

/-- Python tuple unpacking `name, count = parts` of a `split(':')` result:
succeeds only on exactly two parts, otherwise raises `ValueError`. -/
def pyUnpack2 : List String → Except PciError (String × String)
  | [a, b] => .ok (a, b)
  | l => .error (.valueError ("cannot unpack list of length " ++ toString l.length))

/-- Model of Python `int(s)`: strip whitespace, optional sign, decimal
digits; raises `ValueError` otherwise.  (Digit-group underscores accepted by
Python are not modelled; no claim depends on them.) -/
def pyInt (s : String) : Except PciError Int :=
  let sd : Bool × List Char :=
    match (pyStrip s).data with
    | '-' :: rest => (true, rest)
    | '+' :: rest => (false, rest)
    | t => (false, t)
  if sd.2.isEmpty || !(sd.2.all (fun c => c.isDigit)) then
    .error (.valueError ("invalid literal for int() with base 10: " ++ s))
  else
    let n : Nat := sd.2.foldl (fun acc c => acc * 10 + (c.toNat - 48)) 0
    .ok (if sd.1 then -(n : Int) else (n : Int))

/-- Python `affinity_policy or numa_policy`: the override wins unless it is
falsy (`None` or the empty string). -/
def pyOr (o : Option String) (np : String) : String :=
  match o with
  | none => np
  | some p => if p = "" then np else p

/-- The per-pair loop of `_translate_alias_to_requests` over the already
split `alias_name:count` pairs, threading the uuid counter `ctr`; each
emitted request consumes one fresh id. -/
def translatePairs (pci_aliases : Alias) (affinity_policy : Option String) :
    List String → Nat → Except PciError (List InstancePCIRequest)
  | [], _ => .ok []
  | pair :: rest, ctr => do
    let (name0, count) ← pyUnpack2 (pySplit pair ':')
    let name := pyStrip name0
    match lookupAlias pci_aliases name with
    | none => .error (.aliasNotDefined name)
    | some (numa_policy, spec) => do
      let c ← pyInt count
      let reqs ← translatePairs pci_aliases affinity_policy rest (ctr + 1)
      .ok ({ count := c
             spec := spec
             alias_name := name
             numa_policy := pyOr affinity_policy numa_policy
             request_id := ctr } :: reqs)

/-- `_translate_alias_to_requests`: split the extra-spec string on commas and
translate every `alias_name:count` pair against the alias table; `seed` is
the first fresh uuid of this call. -/
def translate_alias_to_requests (pci_aliases : Alias) (alias_spec : String)
    (affinity_policy : Option String) (seed : Nat) :
    Except PciError (List InstancePCIRequest) :=
  translatePairs pci_aliases affinity_policy (pySplit alias_spec ',') seed

/-- An `objects.PciDevice` as consumed by
`get_instance_pci_request_from_vif`. -/
structure PciDevice where
  compute_node_id : Nat
  address : String
  request_id : Nat
deriving DecidableEq, Repr

/-- The slice of `objects.Instance` consumed by
`get_instance_pci_request_from_vif`. -/
structure Instance where
  host : String
  node : String
  pci_devices : List PciDevice
  pci_requests : InstancePCIRequests
deriving DecidableEq, Repr

/-- The `pci_slot` extraction from `vif['profile']`: `None` when the profile
is absent or falsy (the empty dict), else `profile.get('pci_slot')`. -/
def vifPciDevAddr (vif_profile : Option (List (String × String))) :
    Option String :=
  match vif_profile with
  | none => none
  | some p => if p = [] then none else p.lookup "pci_slot"

/-- `get_instance_pci_request_from_vif`: resolve the PCI request behind a
VIF.  `cn_lookup` models `objects.ComputeNode.get_by_host_and_nodename`
(`none` = `exception.NotFound`, which is downgraded to a `None` result with a
warning log). -/
def get_instance_pci_request_from_vif
    (cn_lookup : String → String → Option Nat)
    (inst : Instance)
    (vif_profile : Option (List (String × String))) :
    Except PciError (Option InstancePCIRequest) :=
  match vifPciDevAddr vif_profile with
  | none => .ok none
  | some addr =>
    if addr = "" then .ok none
    else
      match cn_lookup inst.host inst.node with
      | none => .ok none
      | some cn_id =>
        match inst.pci_devices.find?
            (fun d => d.compute_node_id == cn_id && d.address == addr) with
        | none => .ok none
        | some found_pci_dev =>
          match inst.pci_requests.requests.find?
              (fun r => r.request_id == found_pci_dev.request_id) with
          | some r => .ok (some r)
          | none => .error (.requestFromVIFNotFound addr cn_id)

/-! Generic `Except` bind reductions used throughout the proofs. -/

theorem except_ok_bind {ε α β : Type _} (a : α) (f : α → Except ε β) :
    (Except.ok a >>= f : Except ε β) = f a := rfl

theorem except_error_bind {ε α β : Type _} (e : ε) (f : α → Except ε β) :
    (Except.error e >>= f : Except ε β) = .error e := rfl

/-! Helper lemmas about the alias loading pipeline. -/

theorem effNumaPolicy_congr {e1 e2 : RawAlias} (h : e1.numa_policy = e2.numa_policy) :
    effNumaPolicy e1 = effNumaPolicy e2 := by
  unfold effNumaPolicy
  rw [h]

theorem entrySpec_of_no_lm (e : RawAlias) (h : e.live_migratable = none) :
    entrySpec e = .ok (entrySpecFields e none) := by
  unfold entrySpec normLiveMigratable
  rw [h]
  rfl

theorem entrySpecFields_dev_type {e : RawAlias} {d : String} (lm : Option String)
    (hd : e.device_type = some d) (hne : d ≠ "") :
    (entrySpecFields e lm).dev_type = some d := by
  unfold entrySpecFields
  rw [hd]
  simp [hne]

theorem entrySpecFields_vendor_id (e : RawAlias) (lm : Option String) :
    (entrySpecFields e lm).vendor_id = e.vendor_id := rfl

theorem entrySpecFields_product_id (e : RawAlias) (lm : Option String) :
    (entrySpecFields e lm).product_id = e.product_id := rfl

theorem entrySpecFields_resource_class (e : RawAlias) (lm : Option String) :
    (entrySpecFields e lm).resource_class = e.resource_class := rfl

theorem loadAliasEntry_first (e : RawAlias) (h : e.live_migratable = none) :
    loadAliasEntry [] e =
      .ok [(pyStrip e.name, (effNumaPolicy e, [entrySpecFields e none]))] := by
  unfold loadAliasEntry
  rw [entrySpec_of_no_lm e h]
  simp [lookupAlias, except_ok_bind]

theorem loadAliasEntry_merge (e1 e2 : RawAlias) (d : String)
    (hname : pyStrip e2.name = pyStrip e1.name)
    (hnp : e2.numa_policy = e1.numa_policy)
    (hlm2 : e2.live_migratable = none)
    (hd1 : (entrySpecFields e1 none).dev_type = some d)
    (hd2 : (entrySpecFields e2 none).dev_type = some d) :
    loadAliasEntry [(pyStrip e1.name, (effNumaPolicy e1, [entrySpecFields e1 none]))] e2 =
      .ok [(pyStrip e1.name,
        (effNumaPolicy e1, [entrySpecFields e1 none, entrySpecFields e2 none]))] := by
  unfold loadAliasEntry
  rw [entrySpec_of_no_lm e2 hlm2]
  simp [lookupAlias, hname, effNumaPolicy_congr hnp, hd1, hd2, updateAlias, except_ok_bind]

theorem loadAliasEntry_numa_mismatch (e1 e2 : RawAlias) (sp : List PciSpec)
    (hname : pyStrip e2.name = pyStrip e1.name)
    (hlm2 : e2.live_migratable = none)
    (hnp : effNumaPolicy e1 ≠ effNumaPolicy e2) :
    loadAliasEntry [(pyStrip e1.name, (effNumaPolicy e1, sp))] e2 =
      .error (.invalidAlias ("NUMA policy mismatch for alias '" ++ pyStrip e1.name ++ "'")) := by
  unfold loadAliasEntry
  rw [entrySpec_of_no_lm e2 hlm2]
  simp [lookupAlias, hname, except_ok_bind, hnp]

theorem loadAliasEntry_dev_mismatch (e1 e2 : RawAlias) (d1 d2 : String)
    (hname : pyStrip e2.name = pyStrip e1.name)
    (hlm2 : e2.live_migratable = none)
    (hnp : effNumaPolicy e1 = effNumaPolicy e2)
    (hd1 : (entrySpecFields e1 none).dev_type = some d1)
    (hd2 : (entrySpecFields e2 none).dev_type = some d2)
    (hdd : d1 ≠ d2) :
    loadAliasEntry [(pyStrip e1.name, (effNumaPolicy e1, [entrySpecFields e1 none]))] e2 =
      .error (.invalidAlias ("Device type mismatch for alias '" ++ pyStrip e1.name ++ "'")) := by
  unfold loadAliasEntry
  rw [entrySpec_of_no_lm e2 hlm2]
  simp [lookupAlias, hname, except_ok_bind, hnp, hd1, hd2, hdd]

theorem loadAliasEntry_devtype_keyerror (e1 e2 : RawAlias)
    (hname : pyStrip e2.name = pyStrip e1.name)
    (hlm2 : e2.live_migratable = none)
    (hnp : effNumaPolicy e1 = effNumaPolicy e2)
    (hnone : (entrySpecFields e1 none).dev_type = none ∨
      (entrySpecFields e2 none).dev_type = none) :
    loadAliasEntry [(pyStrip e1.name, (effNumaPolicy e1, [entrySpecFields e1 none]))] e2 =
      .error (.invalidAlias "'dev_type'") := by
  unfold loadAliasEntry
  rw [entrySpec_of_no_lm e2 hlm2]
  rcases hnone with h | h
  · simp [lookupAlias, hname, except_ok_bind, hnp, h]
  · cases hh : (entrySpecFields e1 none).dev_type with
    | none => simp [lookupAlias, hname, except_ok_bind, hnp, hh]
    | some d0 => simp [lookupAlias, hname, except_ok_bind, hnp, hh, h]

theorem get_alias_two_error (pin : Bool) (e1 e2 : RawAlias) (err : PciError)
    (hlm1 : e1.live_migratable = none)
    (h2 : loadAliasEntry [(pyStrip e1.name, (effNumaPolicy e1, [entrySpecFields e1 none]))] e2 =
      .error err) :
    get_alias_from_config pin [e1, e2] = .error err := by
  unfold get_alias_from_config buildAliases
  simp only [List.foldlM, loadAliasEntry_first e1 hlm1, except_ok_bind, h2, except_error_bind]

/-! C4 machinery: emptiness of the offender-collecting folds. -/

theorem setAdd_ne_nil (l : List String) (x : String) : setAdd l x ≠ [] := by
  unfold setAdd
  split
  · intro h
    subst h
    simp_all
  · simp

theorem inner_fold_eq_nil_iff (cond : PciSpec → Bool) (n : String)
    (specs : List PciSpec) (acc : List String) :
    (specs.foldl (fun acc2 s => if cond s then setAdd acc2 n else acc2) acc = []) ↔
      (acc = [] ∧ ∀ s ∈ specs, cond s = false) := by
  induction specs generalizing acc with
  | nil => simp
  | cons s ss ih =>
    simp only [List.foldl_cons]
    by_cases h : cond s
    · rw [if_pos h, ih]
      constructor
      · rintro ⟨ha, -⟩
        exact absurd ha (setAdd_ne_nil _ _)
      · rintro ⟨-, hall⟩
        have := hall s (by simp)
        simp [h] at this
    · rw [if_neg h, ih]
      constructor
      · rintro ⟨ha, hall⟩
        refine ⟨ha, ?_⟩
        intro x hx
        rcases List.mem_cons.mp hx with rfl | hx
        · simpa using h
        · exact hall x hx
      · rintro ⟨ha, hall⟩
        exact ⟨ha, fun x hx => hall x (List.mem_cons_of_mem _ hx)⟩

theorem outer_fold_eq_nil_iff (cond : PciSpec → Bool) (t : Alias) (acc : List String) :
    (t.foldl (fun acc a =>
        a.2.2.foldl (fun acc2 s => if cond s then setAdd acc2 a.1 else acc2) acc) acc = []) ↔
      (acc = [] ∧ ∀ a ∈ t, ∀ s ∈ a.2.2, cond s = false) := by
  induction t generalizing acc with
  | nil => simp
  | cons a rest ih =>
    simp only [List.foldl_cons]
    rw [ih]
    constructor
    · rintro ⟨ha, hall⟩
      rw [inner_fold_eq_nil_iff] at ha
      refine ⟨ha.1, ?_⟩
      intro b hb s hs
      rcases List.mem_cons.mp hb with rfl | hb
      · exact ha.2 s hs
      · exact hall b hb s hs
    · rintro ⟨ha, hall⟩
      rw [inner_fold_eq_nil_iff]
      exact ⟨⟨ha, fun s hs => hall a (by simp) s hs⟩,
        fun b hb s hs => hall b (List.mem_cons_of_mem _ hb) s hs⟩

theorem aliasWithoutIdsOrRc_eq_nil_iff (t : Alias) :
    aliasWithoutIdsOrRc t = [] ↔
      ∀ a ∈ t, ∀ s ∈ a.2.2, (specHasIds s || specHasRc s) = true := by
  unfold aliasWithoutIdsOrRc
  rw [outer_fold_eq_nil_iff]
  simp only [true_and]
  constructor
  · intro h a ha s hs
    have := h a ha s hs
    revert this
    cases specHasIds s <;> cases specHasRc s <;> simp
  · intro h a ha s hs
    have := h a ha s hs
    revert this
    cases specHasIds s <;> cases specHasRc s <;> simp

theorem aliasWithoutIds_eq_nil_iff (t : Alias) :
    aliasWithoutIds t = [] ↔ ∀ a ∈ t, ∀ s ∈ a.2.2, specHasIds s = true := by
  unfold aliasWithoutIds
  rw [outer_fold_eq_nil_iff]
  simp only [true_and]
  constructor
  · intro h a ha s hs
    have := h a ha s hs
    revert this
    cases specHasIds s <;> simp
  · intro h a ha s hs
    have := h a ha s hs
    revert this
    cases specHasIds s <;> simp

/-! Translator helper lemmas. -/

theorem pyOr_eq_getD (o : Option String) (np : String)
    (ho : ∀ p, o = some p → p ≠ "") : pyOr o np = o.getD np := by
  cases o with
  | none => rfl
  | some p =>
    simp [pyOr, ho p rfl]

theorem translatePairs_ids (t : Alias) (o : Option String) :
    ∀ (pairs : List String) (ctr : Nat) (reqs : List InstancePCIRequest),
      translatePairs t o pairs ctr = .ok reqs →
      reqs.map (fun r => r.request_id) = List.range' ctr reqs.length := by
  intro pairs
  induction pairs with
  | nil =>
    intro ctr reqs h
    simp only [translatePairs] at h
    cases h
    rfl
  | cons pair rest ih =>
    intro ctr reqs h
    simp only [translatePairs] at h
    cases hu : pyUnpack2 (pySplit pair ':') with
    | error e =>
      simp only [hu, except_error_bind] at h
      cases h
    | ok nc =>
      obtain ⟨nm, cs⟩ := nc
      simp only [hu, except_ok_bind] at h
      cases hl : lookupAlias t (pyStrip nm) with
      | none =>
        simp only [hl] at h
        cases h
      | some v =>
        obtain ⟨np, sp⟩ := v
        simp only [hl] at h
        cases hi : pyInt cs with
        | error e =>
          simp only [hi, except_error_bind] at h
          cases h
        | ok c =>
          simp only [hi, except_ok_bind] at h
          cases hr : translatePairs t o rest (ctr + 1) with
          | error e =>
            simp only [hr, except_error_bind] at h
            cases h
          | ok rs =>
            simp only [hr, except_ok_bind, Except.ok.injEq] at h
            subst h
            have := ih (ctr + 1) rs hr
            simp only [List.map_cons, this, List.length_cons]
            rfl

theorem translatePairs_counts (t : Alias) (o : Option String) :
    ∀ (pairs : List String) (ctr : Nat) (reqs : List InstancePCIRequest),
      translatePairs t o pairs ctr = .ok reqs →
      (∀ pair ∈ pairs, ∀ nm cs, pyUnpack2 (pySplit pair ':') = .ok (nm, cs) →
        ∀ c, pyInt cs = .ok c → 0 < c) →
      ∀ r ∈ reqs, 0 < r.count := by
  intro pairs
  induction pairs with
  | nil =>
    intro ctr reqs h hp
    simp only [translatePairs] at h
    cases h
    simp
  | cons pair rest ih =>
    intro ctr reqs h hp
    simp only [translatePairs] at h
    cases hu : pyUnpack2 (pySplit pair ':') with
    | error e =>
      simp only [hu, except_error_bind] at h
      cases h
    | ok nc =>
      obtain ⟨nm, cs⟩ := nc
      simp only [hu, except_ok_bind] at h
      cases hl : lookupAlias t (pyStrip nm) with
      | none =>
        simp only [hl] at h
        cases h
      | some v =>
        obtain ⟨np, sp⟩ := v
        simp only [hl] at h
        cases hi : pyInt cs with
        | error e =>
          simp only [hi, except_error_bind] at h
          cases h
        | ok c =>
          simp only [hi, except_ok_bind] at h
          cases hr : translatePairs t o rest (ctr + 1) with
          | error e =>
            simp only [hr, except_error_bind] at h
            cases h
          | ok rs =>
            simp only [hr, except_ok_bind, Except.ok.injEq] at h
            subst h
            intro r hr'
            rcases List.mem_cons.mp hr' with rfl | hmem
            · exact hp pair (by simp) nm cs hu c hi
            · exact ih (ctr + 1) rs hr
                (fun q hq => hp q (List.mem_cons_of_mem _ hq)) r hmem

/-! Claim theorems. -/

/-- C1 (counterexample): two raw alias entries with equal name, equal
`numa_policy` and equal `dev_type` do NOT always make `get_alias_from_config`
succeed: with both entries lacking `vendor_id`/`product_id`, the required-ids
validator rejects the merged table even outside strict mode, so building the
alias table fails rather than producing the merged two-spec Alias. -/
theorem alias_table_build_fails_despite_match :
    get_alias_from_config false
      [{ name := "a", device_type := some "type-PCI" },
       { name := "a", device_type := some "type-PCI" }] =
      .error (.invalidAlias (requiredIdsMsg "a")) := by
  decide

/-- C1 (amended): for two raw alias entries with equal name, equal
`numa_policy`, and `device_type` present and equal, provided strict placement
mode is off, both entries carry `vendor_id` and `product_id`, and neither has
a `live_migratable` value, building the alias table succeeds and produces a
single merged Alias whose spec list has exactly the two specs in input order
(OR semantics). -/
theorem alias_or_merge_two_specs (e1 e2 : RawAlias) (d v1 p1 v2 p2 : String)
    (hname : pyStrip e2.name = pyStrip e1.name)
    (hnp : e2.numa_policy = e1.numa_policy)
    (hd1 : e1.device_type = some d) (hd2 : e2.device_type = some d) (hdne : d ≠ "")
    (hlm1 : e1.live_migratable = none) (hlm2 : e2.live_migratable = none)
    (hv1 : e1.vendor_id = some v1) (hp1 : e1.product_id = some p1)
    (hv2 : e2.vendor_id = some v2) (hp2 : e2.product_id = some p2) :
    get_alias_from_config false [e1, e2] =
      .ok [(pyStrip e1.name,
        (effNumaPolicy e1, [entrySpecFields e1 none, entrySpecFields e2 none]))] := by
  have h1 := loadAliasEntry_first e1 hlm1
  have h2 := loadAliasEntry_merge e1 e2 d hname hnp hlm2
    (entrySpecFields_dev_type none hd1 hdne) (entrySpecFields_dev_type none hd2 hdne)
  unfold get_alias_from_config buildAliases
  simp only [List.foldlM, h1, except_ok_bind, h2]
  simp [validate_aliases, validate_multispec, validate_required_ids, aliasWithoutIds,
    specHasIds, entrySpecFields_vendor_id, entrySpecFields_product_id, hv1, hp1, hv2, hp2,
    except_ok_bind]

/-- C1 (witness): the amended theorem applied to two concrete QuickAssist-like
entries sharing name, NUMA policy and device type. -/
theorem alias_or_merge_two_specs_witness :
    get_alias_from_config false
      [{ name := "a", device_type := some "type-PCI", vendor_id := some "8086", product_id := some "0443" },
       { name := "a", device_type := some "type-PCI", vendor_id := some "8086", product_id := some "0442" }] =
      .ok [(pyStrip "a",
        (effNumaPolicy { name := "a", device_type := some "type-PCI", vendor_id := some "8086", product_id := some "0443" },
         [entrySpecFields { name := "a", device_type := some "type-PCI", vendor_id := some "8086", product_id := some "0443" } none,
          entrySpecFields { name := "a", device_type := some "type-PCI", vendor_id := some "8086", product_id := some "0442" } none]))] :=
  alias_or_merge_two_specs _ _ "type-PCI" "8086" "0443" "8086" "0442"
    rfl rfl rfl rfl (by decide) rfl rfl rfl rfl rfl rfl

/-- C2: for two raw alias entries sharing the same (stripped) name, if their
effective NUMA policies differ, table construction fails with
`PciInvalidAlias` whose reason names the conflicting alias ("NUMA policy
mismatch"); if the policies agree but their (present) device types differ, it
fails with a "Device type mismatch" reason naming the alias — in both strict
and non-strict mode. -/
theorem alias_merge_conflict_fails (pin : Bool) (e1 e2 : RawAlias)
    (hname : pyStrip e2.name = pyStrip e1.name)
    (hlm1 : e1.live_migratable = none) (hlm2 : e2.live_migratable = none) :
    (effNumaPolicy e1 ≠ effNumaPolicy e2 →
      get_alias_from_config pin [e1, e2] =
        .error (.invalidAlias ("NUMA policy mismatch for alias '" ++ pyStrip e1.name ++ "'"))) ∧
    (∀ d1 d2 : String, effNumaPolicy e1 = effNumaPolicy e2 →
      e1.device_type = some d1 → d1 ≠ "" → e2.device_type = some d2 → d2 ≠ "" → d1 ≠ d2 →
      get_alias_from_config pin [e1, e2] =
        .error (.invalidAlias ("Device type mismatch for alias '" ++ pyStrip e1.name ++ "'"))) := by
  constructor
  · intro hnp
    exact get_alias_two_error pin e1 e2 _ hlm1
      (loadAliasEntry_numa_mismatch e1 e2 _ hname hlm2 hnp)
  · intro d1 d2 hnp hd1 hne1 hd2 hne2 hdd
    exact get_alias_two_error pin e1 e2 _ hlm1
      (loadAliasEntry_dev_mismatch e1 e2 d1 d2 hname hlm2 hnp
        (entrySpecFields_dev_type none hd1 hne1) (entrySpecFields_dev_type none hd2 hne2) hdd)

/-- C2 (witness): two same-named entries with NUMA policies "legacy" vs
"required" make table construction fail, naming the alias. -/
theorem alias_merge_conflict_fails_witness :
    get_alias_from_config false
      [{ name := "n", numa_policy := some "legacy" },
       { name := "n", numa_policy := some "required" }] =
      .error (.invalidAlias ("NUMA policy mismatch for alias '" ++ pyStrip "n" ++ "'")) :=
  (alias_merge_conflict_fails false { name := "n", numa_policy := some "legacy" }
    { name := "n", numa_policy := some "required" } rfl rfl rfl).1 (by decide)

/-- C3: when strict mode (`pci_in_placement`) is on and the merged table has
at least one alias with more than one spec, `get_alias_from_config` fails with
the multi-spec `PciInvalidAlias` message listing all such alias names
comma-joined in table iteration order — before the required-identifier check
runs (the failure is this one regardless of the required-ids outcome). -/
theorem multispec_strict_mode_fails (entries : List RawAlias) (t : Alias)
    (hb : buildAliases entries = .ok t)
    (hm : aliasWithMultipleSpecs t ≠ []) :
    get_alias_from_config true entries =
      .error (.invalidAlias (multispecMsg (pyJoin "," (aliasWithMultipleSpecs t)))) := by
  unfold get_alias_from_config
  rw [hb]
  simp only [except_ok_bind]
  unfold validate_aliases validate_multispec
  simp [List.isEmpty_iff, hm, except_error_bind]

/-- C3 (witness): two merged id-less entries under strict mode fail with the
multi-spec error (not the required-ids error, which would also apply),
showing the multi-spec check short-circuits first. -/
theorem multispec_strict_mode_fails_witness :
    get_alias_from_config true
      [{ name := "m", device_type := some "type-PCI" },
       { name := "m", device_type := some "type-PCI" }] =
      .error (.invalidAlias (multispecMsg (pyJoin ","
        (aliasWithMultipleSpecs
          [("m", ("legacy", [{ dev_type := some "type-PCI" }, { dev_type := some "type-PCI" }]))])))) :=
  multispec_strict_mode_fails _
    [("m", ("legacy", [{ dev_type := some "type-PCI" }, { dev_type := some "type-PCI" }]))]
    (by decide) (by decide)

/-- C4: the required-identifier check of `_validate_required_ids` succeeds
exactly when every spec of every alias passes its mode's rule — in strict
mode a spec passes iff it has both `vendor_id` and `product_id` or has a
`resource_class`; outside strict mode iff it has both ids (`resource_class`
does not help) — and whenever it fails it fails with the `PciInvalidAlias`
listing the offending alias names sorted and comma-joined. -/
theorem required_ids_check_iff (pin : Bool) (t : Alias) :
    (validate_required_ids pin t = .ok () ↔
      ∀ a ∈ t, ∀ s ∈ a.2.2,
        (if pin then specHasIds s || specHasRc s else specHasIds s) = true) ∧
    (validate_required_ids pin t ≠ .ok () →
      validate_required_ids pin t = .error (.invalidAlias
        (if pin then requiredIdsPlacementMsg (pyJoin "," (sortStrings (aliasWithoutIdsOrRc t)))
         else requiredIdsMsg (pyJoin "," (sortStrings (aliasWithoutIds t)))))) := by
  cases pin with
  | true =>
    by_cases hb : aliasWithoutIdsOrRc t = []
    · have hok : validate_required_ids true t = .ok () := by
        simp [validate_required_ids, List.isEmpty_iff, hb]
      rw [aliasWithoutIdsOrRc_eq_nil_iff] at hb
      constructor
      · simp only [hok, if_true, true_iff]
        intro a ha s hs
        exact hb a ha s hs
      · intro h
        exact absurd hok h
    · have hb' : (aliasWithoutIdsOrRc t).isEmpty = false := by
        simp [List.isEmpty_iff, hb]
      have herr : validate_required_ids true t = .error (.invalidAlias
          (requiredIdsPlacementMsg (pyJoin "," (sortStrings (aliasWithoutIdsOrRc t))))) := by
        simp [validate_required_ids, hb']
      constructor
      · rw [herr]
        simp only [if_true]
        constructor
        · intro h
          exact absurd h (by simp)
        · intro h
          exact absurd ((aliasWithoutIdsOrRc_eq_nil_iff t).mpr h) hb
      · intro h
        rw [herr]
        simp
  | false =>
    by_cases hb : aliasWithoutIds t = []
    · have hok : validate_required_ids false t = .ok () := by
        simp [validate_required_ids, List.isEmpty_iff, hb]
      rw [aliasWithoutIds_eq_nil_iff] at hb
      constructor
      · simp only [hok, Bool.false_eq_true, if_false, true_iff]
        intro a ha s hs
        exact hb a ha s hs
      · intro h
        exact absurd hok h
    · have hb' : (aliasWithoutIds t).isEmpty = false := by
        simp [List.isEmpty_iff, hb]
      have herr : validate_required_ids false t = .error (.invalidAlias
          (requiredIdsMsg (pyJoin "," (sortStrings (aliasWithoutIds t))))) := by
        simp [validate_required_ids, hb']
      constructor
      · rw [herr]
        simp only [Bool.false_eq_true, if_false]
        constructor
        · intro h
          exact absurd h (by simp)
        · intro h
          exact absurd ((aliasWithoutIds_eq_nil_iff t).mpr h) hb
      · intro h
        rw [herr]
        simp
/-- C4 (witness): a strict-mode table whose only spec has neither ids nor a
resource class is rejected with the sorted, comma-joined offender list. -/
theorem required_ids_check_iff_witness :
    validate_required_ids true [("x", ("legacy", [{}]))] ≠ .ok () ∧
    validate_required_ids true [("x", ("legacy", [{}]))] = .error (.invalidAlias
      (requiredIdsPlacementMsg (pyJoin "," (sortStrings (aliasWithoutIdsOrRc [("x", ("legacy", [{}]))]))))) :=
  ⟨by decide, (required_ids_check_iff true [("x", ("legacy", [{}]))]).2 (by decide)⟩

/-- C5: translating "gpu:2" against a table containing alias "gpu" yields
exactly one request with count 2, alias_name "gpu", the alias's spec list,
and NUMA policy equal to the caller's override when a (non-empty) one is
provided, else the alias's own policy. -/
theorem translate_single_alias_request (t : Alias) (np : String) (specs : List PciSpec)
    (o : Option String) (seed : Nat)
    (hlk : lookupAlias t "gpu" = some (np, specs))
    (ho : ∀ p, o = some p → p ≠ "") :
    translate_alias_to_requests t "gpu:2" o seed =
      .ok [{ count := 2, spec := specs, alias_name := "gpu",
             numa_policy := o.getD np, request_id := seed }] := by
  have hs1 : pySplit "gpu:2" ',' = ["gpu:2"] := by decide
  have hs2 : pySplit "gpu:2" ':' = ["gpu", "2"] := by decide
  have hst : pyStrip "gpu" = "gpu" := by decide
  have hi : pyInt "2" = .ok 2 := by decide
  unfold translate_alias_to_requests
  rw [hs1]
  simp only [translatePairs, hs2, pyUnpack2, except_ok_bind, hst, hlk, hi,
    pyOr_eq_getD o np ho]

/-- C5 (witness): the theorem applied to a one-alias table with no override. -/
theorem translate_single_alias_request_witness :
    translate_alias_to_requests
      [("gpu", ("legacy", [{ vendor_id := some "8086", product_id := some "0443" }]))]
      "gpu:2" none 11 =
      .ok [{ count := 2, spec := [{ vendor_id := some "8086", product_id := some "0443" }],
             alias_name := "gpu", numa_policy := "legacy", request_id := 11 }] :=
  translate_single_alias_request _ "legacy" _ none 11 (by decide) (by intro p h; simp at h)

/-- C6: translating "a:1,b:3" against a table containing aliases "a" and "b"
yields exactly two requests, in input-pair order, with distinct request ids;
and in every successfully emitted request list all request ids are unique. -/
theorem translate_order_and_unique_ids (t : Alias) (o : Option String) (seed : Nat)
    (npa npb : String) (sa sb : List PciSpec)
    (hlka : lookupAlias t "a" = some (npa, sa))
    (hlkb : lookupAlias t "b" = some (npb, sb)) :
    (translate_alias_to_requests t "a:1,b:3" o seed =
        .ok [{ count := 1, spec := sa, alias_name := "a",
               numa_policy := pyOr o npa, request_id := seed },
             { count := 3, spec := sb, alias_name := "b",
               numa_policy := pyOr o npb, request_id := seed + 1 }] ∧
      seed ≠ seed + 1) ∧
    (∀ (t2 : Alias) (o2 : Option String) (s2 : String) (seed2 : Nat)
        (reqs : List InstancePCIRequest),
      translate_alias_to_requests t2 s2 o2 seed2 = .ok reqs →
      (reqs.map (fun r => r.request_id)).Nodup) := by
  constructor
  · constructor
    · have hs1 : pySplit "a:1,b:3" ',' = ["a:1", "b:3"] := by decide
      have hs2a : pySplit "a:1" ':' = ["a", "1"] := by decide
      have hs2b : pySplit "b:3" ':' = ["b", "3"] := by decide
      have hsta : pyStrip "a" = "a" := by decide
      have hstb : pyStrip "b" = "b" := by decide
      have hi1 : pyInt "1" = .ok 1 := by decide
      have hi3 : pyInt "3" = .ok 3 := by decide
      unfold translate_alias_to_requests
      rw [hs1]
      simp only [translatePairs, hs2a, hs2b, pyUnpack2, except_ok_bind, hsta, hstb,
        hlka, hlkb, hi1, hi3]
    · omega
  · intro t2 o2 s2 seed2 reqs h
    unfold translate_alias_to_requests at h
    rw [translatePairs_ids t2 o2 (pySplit s2 ',') seed2 reqs h]
    exact List.nodup_range' _ _

/-- C6 (witness): the theorem applied to a concrete two-alias table at
seed 5; the two requests come back in input order with ids 5 and 6. -/
theorem translate_order_and_unique_ids_witness :
    (translate_alias_to_requests
      [("a", ("legacy", [{ vendor_id := some "1111", product_id := some "2222" }])),
       ("b", ("required", [{ vendor_id := some "3333", product_id := some "4444" }]))]
      "a:1,b:3" none 5 =
      .ok [{ count := 1, spec := [{ vendor_id := some "1111", product_id := some "2222" }],
             alias_name := "a", numa_policy := "legacy", request_id := 5 },
           { count := 3, spec := [{ vendor_id := some "3333", product_id := some "4444" }],
             alias_name := "b", numa_policy := "required", request_id := 5 + 1 }] ∧
     5 ≠ 5 + 1) :=
  (translate_order_and_unique_ids _ none 5 "legacy" "required" _ _ (by decide) (by decide)).1

/-- C7 (counterexample): a translation can succeed with a request whose count
is NOT strictly positive: "gpu:0" translates successfully to a single request
with count 0, because `int(count)` accepts "0" and no positivity check
exists. -/
theorem translate_zero_count_succeeds :
    translate_alias_to_requests
      [("gpu", ("legacy", [{ vendor_id := some "8086", product_id := some "0443" }]))]
      "gpu:0" none 0 =
      .ok [{ count := 0, spec := [{ vendor_id := some "8086", product_id := some "0443" }],
             alias_name := "gpu", numa_policy := "legacy", request_id := 0 }] := by
  decide

/-- C7 (amended): every request emitted by a successful translation has count
equal to the integer parsed from its pair's count field; in particular all
counts are strictly positive provided every count substring of the alias
string parses to a positive integer. -/
theorem translate_counts_positive (t : Alias) (alias_spec : String)
    (o : Option String) (seed : Nat) (reqs : List InstancePCIRequest)
    (hok : translate_alias_to_requests t alias_spec o seed = .ok reqs)
    (hpos : ∀ pair ∈ pySplit alias_spec ',', ∀ nm cs,
      pyUnpack2 (pySplit pair ':') = .ok (nm, cs) → ∀ c, pyInt cs = .ok c → 0 < c) :
    ∀ r ∈ reqs, 0 < r.count := by
  unfold translate_alias_to_requests at hok
  exact translatePairs_counts t o (pySplit alias_spec ',') seed reqs hok hpos

/-- C7 (witness): the amended theorem applied to "gpu:2", whose single count
substring parses to the positive integer 2. -/
theorem translate_counts_positive_witness :
    (0 : Int) <
    ({ count := 2, spec := [{ vendor_id := some "8086", product_id := some "0443" }],
       alias_name := "gpu", numa_policy := "legacy",
       request_id := 0 } : InstancePCIRequest).count :=
  translate_counts_positive
    [("gpu", ("legacy", [{ vendor_id := some "8086", product_id := some "0443" }]))]
    "gpu:2" none 0
    [{ count := 2, spec := [{ vendor_id := some "8086", product_id := some "0443" }],
       alias_name := "gpu", numa_policy := "legacy", request_id := 0 }]
    (by decide)
    (by
      intro pair hp nm cs hu c hi
      have hl : pySplit "gpu:2" ',' = ["gpu:2"] := by decide
      rw [hl] at hp
      have hpair : pair = "gpu:2" := by simpa using hp
      subst hpair
      have h2 : pySplit "gpu:2" ':' = ["gpu", "2"] := by decide
      rw [h2] at hu
      simp only [pyUnpack2, Except.ok.injEq, Prod.mk.injEq] at hu
      obtain ⟨h3, h4⟩ := hu
      subst h3
      subst h4
      have h5 : pyInt "2" = .ok 2 := by decide
      rw [h5] at hi
      cases hi
      decide)
    _ (by decide)

/-- C8: the binding resolver returns "no request" (`.ok none`) rather than an
error when the interface's binding profile carries no device address, when
the compute-node lookup reports not-found, and when no bound device of the
instance matches both the current compute-node id and the device address. -/
theorem vif_resolver_returns_none_cases (cn_lookup : String → String → Option Nat)
    (inst : Instance) (profile : Option (List (String × String))) :
    ((vifPciDevAddr profile = none ∨ vifPciDevAddr profile = some "") →
      get_instance_pci_request_from_vif cn_lookup inst profile = .ok none) ∧
    (cn_lookup inst.host inst.node = none →
      get_instance_pci_request_from_vif cn_lookup inst profile = .ok none) ∧
    (∀ addr cn_id, vifPciDevAddr profile = some addr →
      cn_lookup inst.host inst.node = some cn_id →
      (∀ d ∈ inst.pci_devices, ¬(d.compute_node_id = cn_id ∧ d.address = addr)) →
      get_instance_pci_request_from_vif cn_lookup inst profile = .ok none) := by
  refine ⟨?_, ?_, ?_⟩
  · rintro (h | h) <;> simp [get_instance_pci_request_from_vif, h]
  · intro h
    unfold get_instance_pci_request_from_vif
    cases ha : vifPciDevAddr profile with
    | none => rfl
    | some addr =>
      by_cases he : addr = ""
      · simp [he]
      · simp [he, h]
  · intro addr cn_id ha hcn hnd
    unfold get_instance_pci_request_from_vif
    rw [ha]
    by_cases he : addr = ""
    · simp [he]
    · have hfind : inst.pci_devices.find?
          (fun d => d.compute_node_id == cn_id && d.address == addr) = none := by
        rw [List.find?_eq_none]
        intro d hd
        have := hnd d hd
        simp only [Bool.and_eq_true, beq_iff_eq]
        tauto
      simp [he, hcn, hfind]

/-- C8 (witness): a not-found compute-node lookup yields `.ok none` for a
profile that does carry a device address. -/
theorem vif_resolver_returns_none_cases_witness :
    get_instance_pci_request_from_vif (fun _ _ => none)
      { host := "h", node := "n", pci_devices := [], pci_requests := { requests := [] } }
      (some [("pci_slot", "0000:00:1f.6")]) = .ok none :=
  (vif_resolver_returns_none_cases (fun _ _ => none) _ _).2.1 rfl

/-- C9: when a bound device matches the current compute node and the
interface's device address, the resolver fails with
`PciRequestFromVIFNotFound` carrying the device address and the compute-node
id if no request of the instance has the device's `request_id`; if a request
with that `request_id` exists (the first such by scan order), it is
returned. -/
theorem vif_resolver_found_device (cn_lookup : String → String → Option Nat)
    (inst : Instance) (profile : Option (List (String × String)))
    (addr : String) (cn_id : Nat) (dev : PciDevice)
    (haddr : vifPciDevAddr profile = some addr) (hne : addr ≠ "")
    (hcn : cn_lookup inst.host inst.node = some cn_id)
    (hdev : inst.pci_devices.find?
      (fun d => d.compute_node_id == cn_id && d.address == addr) = some dev) :
    ((∀ r ∈ inst.pci_requests.requests, r.request_id ≠ dev.request_id) →
      get_instance_pci_request_from_vif cn_lookup inst profile =
        .error (.requestFromVIFNotFound addr cn_id)) ∧
    (∀ r, inst.pci_requests.requests.find?
        (fun r => r.request_id == dev.request_id) = some r →
      get_instance_pci_request_from_vif cn_lookup inst profile = .ok (some r)) := by
  constructor
  · intro hnr
    have hfind : inst.pci_requests.requests.find?
        (fun r => r.request_id == dev.request_id) = none := by
      rw [List.find?_eq_none]
      intro r hr
      simpa using hnr r hr
    unfold get_instance_pci_request_from_vif
    rw [haddr]
    simp [hne, hcn, hdev, hfind]
  · intro r hr
    unfold get_instance_pci_request_from_vif
    rw [haddr]
    simp [hne, hcn, hdev, hr]

/-- C9 (witness): a matching bound device whose request id (9) appears in no
instance request makes the resolver fail with the device address and node
id. -/
theorem vif_resolver_found_device_witness :
    get_instance_pci_request_from_vif (fun _ _ => some 3)
      { host := "h", node := "n",
        pci_devices := [{ compute_node_id := 3, address := "0000:04:00.1", request_id := 9 }],
        pci_requests := { requests := [] } }
      (some [("pci_slot", "0000:04:00.1")]) =
      .error (.requestFromVIFNotFound "0000:04:00.1" 3) :=
  (vif_resolver_found_device (fun _ _ => some 3) _ _ "0000:04:00.1" 3
    { compute_node_id := 3, address := "0000:04:00.1", request_id := 9 }
    (by decide) (by decide) rfl (by decide)).1 (by simp)

/-- C10: when two raw alias entries share the same (stripped) name and agree
on effective `numa_policy`, but either entry omits `device_type`, the merge
does not happen: `get_alias_from_config` fails with `PciInvalidAlias` whose
reason is the stringified `KeyError` on the missing `dev_type` key
(normalized by the generic exception handler), in both modes. -/
theorem merge_missing_devtype_fails (pin : Bool) (e1 e2 : RawAlias)
    (hname : pyStrip e2.name = pyStrip e1.name)
    (hnp : effNumaPolicy e1 = effNumaPolicy e2)
    (hlm1 : e1.live_migratable = none) (hlm2 : e2.live_migratable = none)
    (homit : e1.device_type = none ∨ e2.device_type = none) :
    get_alias_from_config pin [e1, e2] = .error (.invalidAlias "'dev_type'") := by
  have h : (entrySpecFields e1 none).dev_type = none ∨
      (entrySpecFields e2 none).dev_type = none := by
    rcases homit with h | h
    · left
      simp [entrySpecFields, h]
    · right
      simp [entrySpecFields, h]
  exact get_alias_two_error pin e1 e2 _ hlm1
    (loadAliasEntry_devtype_keyerror e1 e2 hname hlm2 hnp h)

/-- C10 (witness): two minimal same-named entries, both omitting
`device_type` (and hence agreeing on it), fail with the KeyError-derived
reason instead of merging. -/
theorem merge_missing_devtype_fails_witness :
    get_alias_from_config false [{ name := "a" }, { name := "a" }] =
      .error (.invalidAlias "'dev_type'") :=
  merge_missing_devtype_fails false { name := "a" } { name := "a" } rfl rfl rfl rfl (Or.inl rfl)
